import Mathlib

/-!
Verification of the guillotine 2D bin-packing engine
(src/greedypacker/guillotine.py) against its natural-language
specification.  The Python code is shallowly embedded below: Python
unbounded integers become `Int`, the mutable free-rectangle list becomes
an explicit `List FreeRectangle` threaded through the functions, the
mutable `Item` object becomes a value that every operation returns
updated, and operations that can raise a Python exception
(`ValueError` from `list.remove`, `ZeroDivisionError` in `bin_stats`)
return `Option`, with `none` standing for the raised exception.
-/

/-- FreeRectangle mirrors the Python named tuple
`FreeRectangle(width, height, x, y)` (guillotine.py line 16). -/
structure FreeRectangle where
  width : Int
  height : Int
  x : Int
  y : Int
deriving DecidableEq, Repr

/-- Derived attribute `area = width*height` (guillotine.py lines 18-20). -/
def FreeRectangle.area (r : FreeRectangle) : Int :=
  r.width * r.height

/-- Python tuple comparison `a < b` on the named tuple, i.e. lexicographic
order on (width, height, x, y); used by `min` in `_compare_two_freerects`. -/
def FreeRectangle.tupleLt (a b : FreeRectangle) : Bool :=
  decide (a.width < b.width) ||
    (a.width == b.width && (decide (a.height < b.height) ||
      (a.height == b.height && (decide (a.x < b.x) ||
        (a.x == b.x && decide (a.y < b.y))))))

/-- Modelled from the spec: the `Item` class (module `greedypacker.item`
is imported by guillotine.py but its file is not under src/). Per spec
section 3 an item carries a current `width` and `height`, an initially
unset placement position (`CornerPoint`, set by the engine on success),
and a `rotated` flag; `rotate()` swaps width and height. -/
structure Item where
  width : Int
  height : Int
  corner : Option (Int × Int)
  rotated : Bool
deriving DecidableEq, Repr

/-- Modelled from the spec: `Item.rotate()` swaps the current width and
height and records that the orientation changed. -/
def Item.rotate (it : Item) : Item :=
  { it with width := it.height, height := it.width, rotated := !it.rotated }

/-- Engine state: bin dimensions `x`, `y`, configuration flags and the
free-rectangle and placed-item lists (guillotine.py `Guillotine.__init__`). -/
structure Guillotine where
  x : Int
  y : Int
  rotation : Bool
  rMerge : Bool
  split_heuristic : String
  freerects : List FreeRectangle
  items : List Item
deriving DecidableEq, Repr

/-- Constructor `Guillotine.__init__` (guillotine.py lines 24-40): a zero
bin dimension yields an empty free list, otherwise one rectangle covering
the whole bin. -/
def Guillotine.init (x y : Int) (rotation : Bool) (rectangle_merge : Bool)
    (split_heuristic : String) : Guillotine :=
  { x := x, y := y, rotation := rotation, rMerge := rectangle_merge,
    split_heuristic := split_heuristic,
    freerects := if x == 0 || y == 0 then [] else [⟨x, y, 0, 0⟩],
    items := [] }

/-- `Guillotine._fitted_rects` (guillotine.py lines 47-57): free rectangles
whose width and height are at least the (possibly rotated) item dimensions. -/
def Guillotine.fitted_rects (g : Guillotine) (it : Item) (rotation : Bool) :
    List FreeRectangle :=
  let width := if rotation then it.height else it.width
  let height := if rotation then it.width else it.height
  g.freerects.filter (fun r => decide (width ≤ r.width) && decide (height ≤ r.height))

/-- `Guillotine._split_along_axis` (guillotine.py lines 60-90): split the
consumed free rectangle around the placed item; `split = true` is the
horizontal split.  Pieces with a non-positive dimension are discarded. -/
def splitAlongAxis (freeRect : FreeRectangle) (it : Item) (split : Bool) :
    List FreeRectangle :=
  let top_x := freeRect.x
  let top_y := freeRect.y + it.height
  let top_h := freeRect.height - it.height
  let right_x := freeRect.x + it.width
  let right_y := freeRect.y
  let right_w := freeRect.width - it.width
  let top_w := if split then freeRect.width else it.width
  let right_h := if split then it.height else freeRect.height
  (if 0 < right_w && 0 < right_h then [⟨right_w, right_h, right_x, right_y⟩] else [])
    ++ (if 0 < top_w && 0 < top_h then [⟨top_w, top_h, top_x, top_y⟩] else [])

/-- Split-axis decision of `Guillotine._split_free_rect`
(guillotine.py lines 100-110), keyed by the split-policy string;
any unrecognized string falls through to `split = True`. -/
def splitDecision (split_heuristic : String) (it : Item) (freeRect : FreeRectangle) :
    Bool :=
  let w := freeRect.width - it.width
  let h := freeRect.height - it.height
  if split_heuristic == "SplitShorterLeftoverAxis" then decide (w ≤ h)
  else if split_heuristic == "SplitLongerLeftoverAxis" then decide (h < w)
  else if split_heuristic == "SplitMinimizeArea" then decide (w * it.height < it.width * h)
  else if split_heuristic == "SplitMaximizeArea" then decide (it.width * h ≤ w * it.height)
  else if split_heuristic == "SplitShorterAxis" then decide (freeRect.width ≤ freeRect.height)
  else if split_heuristic == "SplitLongerAxis" then decide (freeRect.height < freeRect.width)
  else true

/-- `Guillotine._split_free_rect` (guillotine.py lines 93-113). -/
def splitFreeRect (split_heuristic : String) (it : Item) (freeRect : FreeRectangle) :
    List FreeRectangle :=
  splitAlongAxis freeRect it (splitDecision split_heuristic it freeRect)

/-- Field selector of `Guillotine._rectangle_reduce`: the Python code keys
the comparison on the strings given to it by `insert`
("width", "height", "area"). -/
inductive ReduceField where
  | width
  | height
  | area
deriving DecidableEq, Repr

/-- Value of the selected field on a free rectangle. -/
def ReduceField.get : ReduceField → FreeRectangle → Int
  | .width, r => r.width
  | .height, r => r.height
  | .area, r => r.area

/-- `Guillotine._rectangle_reduce` (guillotine.py lines 116-131):
`functools.reduce` of the pairwise comparison over the fitted list,
returning `None` (here `none`) on an empty list. -/
def rectangleReduce (fitted : List FreeRectangle) (op : Int → Int → Bool)
    (field : ReduceField) : Option FreeRectangle :=
  match fitted with
  | [] => none
  | r :: rs =>
    some (rs.foldl (fun a b => if op (field.get a) (field.get b) then a else b) r)

/-- `Guillotine._compare_two_freerects` (guillotine.py lines 134-146):
`min` of two optional rectangles under Python tuple order; `min(A, B)`
returns `A` when the two are equal. -/
def compareTwoFreerects :
    Option FreeRectangle → Option FreeRectangle → Option FreeRectangle
  | none, none => none
  | some a, some b => some (if FreeRectangle.tupleLt b a then b else a)
  | some a, none => some a
  | none, some b => some b

/-- `Guillotine.first_fit` (guillotine.py lines 149-167).  Returns the
Python return value together with the updated engine and item. -/
def Guillotine.first_fit (g : Guillotine) (it : Item) : Bool × Guillotine × Item :=
  let fitted := g.fitted_rects it false
  let p : List FreeRectangle × Item :=
    if fitted.isEmpty && g.rotation then
      let fr := g.fitted_rects it true
      (fr, if fr.isEmpty then it else it.rotate)
    else (fitted, it)
  match p with
  | ([], it2) => (false, g, it2)
  | (freerect :: _, it2) =>
    let it3 := { it2 with corner := some (freerect.x, freerect.y) }
    (true,
      { g with
        items := g.items ++ [it3],
        freerects := (g.freerects.erase freerect)
          ++ splitFreeRect g.split_heuristic it3 freerect },
      it3)

/-- `Guillotine._generic_algo` (guillotine.py lines 170-194).  Note the
code rotates the item whenever `best == smallest_rotated` holds by value,
which includes the case where both candidates are `None` (a failed
insertion) and the case where both orientations produce equal candidates. -/
def Guillotine.generic_algo (g : Guillotine) (it : Item) (field : ReduceField)
    (op : Int → Int → Bool) : Bool × Guillotine × Item :=
  let smallest_rect := rectangleReduce (g.fitted_rects it false) op field
  let p : Option FreeRectangle × Item :=
    if g.rotation then
      let smallest_rotated := rectangleReduce (g.fitted_rects it true) op field
      let best := compareTwoFreerects smallest_rect smallest_rotated
      (best, if best == smallest_rotated then it.rotate else it)
    else (smallest_rect, it)
  match p with
  | (none, it2) => (false, g, it2)
  | (some best, it2) =>
    let it3 := { it2 with corner := some (best.x, best.y) }
    (true,
      { g with
        items := g.items ++ [it3],
        freerects := (g.freerects.erase best)
          ++ splitFreeRect g.split_heuristic it3 best },
      it3)

/-- Python `list.remove`: removes the first occurrence, raising
`ValueError` (modelled as `none`) when the element is absent. -/
def removeFirst (l : List FreeRectangle) (a : FreeRectangle) :
    Option (List FreeRectangle) :=
  if a ∈ l then some (l.erase a) else none

/-- Body of one iteration of the `for freerect in self.freerects` loop of
`Guillotine.rectangle_merge` (guillotine.py lines 202-233), acting on the
current list `l0`.  Both `matching_widths` and `matching_heights` are
computed up front from `l0`, exactly as in the source; the two adjacency
filters are (as in the source) taken over the whole current free list,
not over the matching candidates. -/
def mergeBody (l0 : List FreeRectangle) (freerect : FreeRectangle) :
    Option (List FreeRectangle) :=
  let matching_widths := l0.filter (fun r =>
    (r.width == freerect.width && r.x == freerect.x) && r != freerect)
  let matching_heights := l0.filter (fun r =>
    (r.height == freerect.height && r.y == freerect.y) && r != freerect)
  let step1 : Option (List FreeRectangle) :=
    if matching_widths.isEmpty then some l0
    else
      match l0.filter (fun r => r.y == freerect.y + freerect.height) with
      | [] => some l0
      | match_rect :: _ =>
        let merged : FreeRectangle :=
          ⟨freerect.width, freerect.height + match_rect.height, freerect.x, freerect.y⟩
        match removeFirst l0 freerect with
        | none => none
        | some l1 =>
          match removeFirst l1 match_rect with
          | none => none
          | some l2 => some (l2 ++ [merged])
  match step1 with
  | none => none
  | some l1 =>
    if matching_heights.isEmpty then some l1
    else
      match l1.filter (fun r => r.x == freerect.x + freerect.width) with
      | [] => some l1
      | match_rect :: _ =>
        let merged : FreeRectangle :=
          ⟨freerect.width + match_rect.width, freerect.height, freerect.x, freerect.y⟩
        match removeFirst l1 freerect with
        | none => none
        | some l2 =>
          match removeFirst l2 match_rect with
          | none => none
          | some l3 => some (l3 ++ [merged])

theorem removeFirst_length {l : List FreeRectangle} {a : FreeRectangle}
    {l' : List FreeRectangle} (h : removeFirst l a = some l') :
    l'.length + 1 = l.length := by
  unfold removeFirst at h
  split at h
  next hmem =>
    cases h
    have hpos : 0 < l.length := List.length_pos.mpr (List.ne_nil_of_mem hmem)
    rw [List.length_erase_of_mem hmem]
    omega
  next => cases h

theorem mergeBody_length {l : List FreeRectangle} {fr : FreeRectangle}
    {l' : List FreeRectangle} (h : mergeBody l fr = some l') :
    l'.length ≤ l.length := by
  unfold mergeBody at h
  simp only at h
  split at h
  · cases h
  next l1 hstep1 =>
    have h1 : l1.length ≤ l.length := by
      split at hstep1
      · cases hstep1; exact le_refl _
      · split at hstep1
        · cases hstep1; exact le_refl _
        · split at hstep1
          · cases hstep1
          next la hla =>
            split at hstep1
            · cases hstep1
            next lb hlb =>
              cases hstep1
              have ha := removeFirst_length hla
              have hb := removeFirst_length hlb
              simp only [List.length_append, List.length_cons, List.length_nil]
              omega
    split at h
    · cases h; exact h1
    · split at h
      · cases h; exact h1
      · split at h
        · cases h
        next la hla =>
          split at h
          · cases h
          next lb hlb =>
            cases h
            have ha := removeFirst_length hla
            have hb := removeFirst_length hlb
            simp only [List.length_append, List.length_cons, List.length_nil]
            omega

/-- Iteration of `for freerect in self.freerects` with in-loop mutation:
Python's list iterator keeps an index into the current list, so each step
reads element `i` of the list as it stands after the previous step's
removals and appends.  The recursion is driven by a fuel parameter so the
function reduces definitionally; `mergeLoopF_enough_fuel` below shows the
out-of-fuel answer (outer `none`) is never produced for the fuel
`rectangle_merge` supplies, so the fuel is an implementation artifact,
not part of the modelled semantics.  The inner option is the loop result:
`some none` models an uncaught `ValueError` from `list.remove`. -/
def mergeLoopF : Nat → List FreeRectangle → Nat → Option (Option (List FreeRectangle))
  | 0, l, i => if i < l.length then none else some (some l)
  | fuel+1, l, i =>
    if h : i < l.length then
      match mergeBody l (l.get ⟨i, h⟩) with
      | none => some none
      | some l' => mergeLoopF fuel l' (i + 1)
    else some (some l)

theorem mergeLoopF_enough_fuel :
    ∀ (fuel : Nat) (l : List FreeRectangle) (i : Nat),
      l.length ≤ i + fuel → mergeLoopF fuel l i ≠ none := by
  intro fuel
  induction fuel with
  | zero =>
    intro l i hle
    unfold mergeLoopF
    have : ¬ i < l.length := by omega
    simp [this]
  | succ n ih =>
    intro l i hle
    unfold mergeLoopF
    split
    next h =>
      cases hb : mergeBody l (l.get ⟨i, h⟩) with
      | none => simp
      | some l' =>
        simp only []
        have hlen := mergeBody_length hb
        exact ih l' (i + 1) (by omega)
    next => simp

/-- `Guillotine.rectangle_merge` (guillotine.py lines 197-233); `none`
models an uncaught `ValueError` from `list.remove`.  The first match arm
is unreachable by `mergeLoopF_enough_fuel`. -/
def Guillotine.rectangle_merge (g : Guillotine) : Option Guillotine :=
  match mergeLoopF g.freerects.length g.freerects 0 with
  | none => none
  | some none => none
  | some (some l) => some { g with freerects := l }

/-- Shared tail of every branch of `Guillotine.insert`: on success run the
merge pass when `rMerge` is set, on failure return the state untouched. -/
def afterInsert (res : Bool × Guillotine × Item) : Option (Bool × Guillotine × Item) :=
  match res with
  | (true, g, it) =>
    if g.rMerge then
      match g.rectangle_merge with
      | none => none
      | some g' => some (true, g', it)
    else some (true, g, it)
  | (false, g, it) => some (false, g, it)

/-- Python `operator.lt` on integers. -/
def intLt (a b : Int) : Bool := decide (a < b)

/-- Python `operator.gt` on integers. -/
def intGt (a b : Int) : Bool := decide (b < a)

/-- `Guillotine.insert` (guillotine.py lines 236-282): dispatch on the
heuristic name; an unrecognized name returns `False` without touching the
engine.  `none` models an uncaught exception. -/
def Guillotine.insert (g : Guillotine) (it : Item) (heuristic : String) :
    Option (Bool × Guillotine × Item) :=
  if heuristic == "first_fit" then afterInsert (g.first_fit it)
  else if heuristic == "best_width_fit" then
    afterInsert (g.generic_algo it ReduceField.width intLt)
  else if heuristic == "best_height_fit" then
    afterInsert (g.generic_algo it ReduceField.height intLt)
  else if heuristic == "best_area_fit" then
    afterInsert (g.generic_algo it ReduceField.area intLt)
  else if heuristic == "worst_width_fit" then
    afterInsert (g.generic_algo it ReduceField.width intGt)
  else if heuristic == "worst_height_fit" then
    afterInsert (g.generic_algo it ReduceField.height intGt)
  else if heuristic == "worst_area_fit" then
    afterInsert (g.generic_algo it ReduceField.area intGt)
  else some (false, g, it)

/-- Statistics record returned by `bin_stats` (guillotine.py lines 285-298). -/
structure BinStats where
  width : Int
  height : Int
  area : Int
  efficiency : ℚ
  items : List Item
deriving DecidableEq, Repr

/-- Sum of the areas of a list of free rectangles. -/
def freeAreaSum (l : List FreeRectangle) : Int :=
  (l.map FreeRectangle.area).sum

/-- Sum of `width*height` over placed items. -/
def placedAreaSum (l : List Item) : Int :=
  (l.map (fun it => it.width * it.height)).sum

/-- `Guillotine.bin_stats` (guillotine.py lines 285-298).  The efficiency
is `1 - free_area/(x*y)`; the division is not guarded, so a zero bin area
raises `ZeroDivisionError`, modelled as `none`. -/
def Guillotine.bin_stats (g : Guillotine) : Option BinStats :=
  if g.x * g.y == 0 then none
  else some
    { width := g.x, height := g.y, area := g.x * g.y,
      efficiency := 1 - (freeAreaSum g.freerects : ℚ) / ((g.x * g.y : Int) : ℚ),
      items := g.items }

/-- Run a sequence of `insert` calls, each on a fresh unplaced item of the
given dimensions with the given heuristic.  Returns the final engine and
the list of `insert` return values; `none` when some call raised. -/
def runTrace (g : Guillotine) : List (Int × Int × String) → Option (Guillotine × List Bool)
  | [] => some (g, [])
  | (w, h, heu) :: rest =>
    match g.insert ⟨w, h, none, false⟩ heu with
    | none => none
    | some (b, g', _) =>
      match runTrace g' rest with
      | none => none
      | some (gf, bs) => some (gf, b :: bs)

/-- Two axis-aligned rectangles overlap when their interiors intersect. -/
def FreeRectangle.overlaps (a b : FreeRectangle) : Bool :=
  decide (a.x < b.x + b.width) && decide (b.x < a.x + a.width) &&
    decide (a.y < b.y + b.height) && decide (b.y < a.y + a.height)

/-- Whether any two distinct entries of the list overlap. -/
def anyPairOverlap : List FreeRectangle → Bool
  | [] => false
  | r :: rs => rs.any (fun s => r.overlaps s) || anyPairOverlap rs

/-- Rectangle occupied by a placed item (its corner and current dimensions). -/
def Item.rect (it : Item) : Option FreeRectangle :=
  match it.corner with
  | none => none
  | some (px, py) => some ⟨it.width, it.height, px, py⟩

/-- Rectangles of all placed items of an engine that have a position. -/
def placedRects (l : List Item) : List FreeRectangle :=
  l.filterMap Item.rect

/-- Merge condition as the specification words it (spec section 4.4): the
two rectangles share the same `x` and `width` and are vertically
contiguous (one immediately above the other), or share the same `y` and
`height` and are horizontally contiguous. -/
def specMergeable (a b : FreeRectangle) : Bool :=
  (a.x == b.x && a.width == b.width && (b.y == a.y + a.height || a.y == b.y + b.height)) ||
    (a.y == b.y && a.height == b.height && (b.x == a.x + a.width || a.x == b.x + b.width))

/-- Claim C7: inserting a 3 by 2 item with `first_fit` into a freshly
constructed 8 by 4 bin with the default split policy succeeds, places the
item at (0,0) and leaves exactly the free rectangles (5,2,3,0) and
(8,2,0,2). -/
theorem C7_scenario_8x4 :
    (Guillotine.init 8 4 true false "default").insert ⟨3, 2, none, false⟩ "first_fit"
      = some (true,
          { x := 8, y := 4, rotation := true, rMerge := false, split_heuristic := "default",
            freerects := [⟨5, 2, 3, 0⟩, ⟨8, 2, 0, 2⟩],
            items := [⟨3, 2, some (0, 0), false⟩] },
          ⟨3, 2, some (0, 0), false⟩) := by decide

/-- Claim C4 (code-bug evidence): a 9 by 10 item fits an 8 by 4 bin in
neither orientation, and `insert` with a best-fit heuristic and rotation
enabled indeed returns failure leaving the free set and placed list
byte-for-byte unchanged — but the item comes back with width and height
swapped and its rotation flag flipped, because `_generic_algo` evaluates
`best == smallest_rotated` as `None == None` and calls `item.rotate()`. -/
theorem C4_failed_insert_rotates_item :
    (Guillotine.init 8 4 true false "default").insert ⟨9, 10, none, false⟩ "best_width_fit"
      = some (false, Guillotine.init 8 4 true false "default", ⟨10, 9, none, true⟩) := by
  decide

/-- Claim C2 (code-bug evidence): after three successful insertions into a
3 by 5 bin with the merge pass enabled, the placed areas sum to 6 and the
free areas to 8, so placed plus free is 14, not the bin area 15: the merge
pass merged a non-matching pair and lost area. -/
theorem C2_area_not_conserved :
    (runTrace (Guillotine.init 3 5 false true "default")
        [(1,1,"first_fit"),(3,1,"first_fit"),(1,2,"first_fit")]).map
      (fun p => (p.2, placedAreaSum p.1.items, freeAreaSum p.1.freerects))
      = some ([true, true, true], 6, 8) ∧ (6 : Int) + 8 ≠ 3 * 5 := by decide

/-- Claim C1 (code-bug evidence): after four successful insertions into a
3 by 4 bin with the default split policy and the merge pass enabled, the
second placed item, a 2 by 1 at (0,1), and the fourth, a 1 by 2 at (1,0),
occupy overlapping rectangles. -/
theorem C1_placed_items_overlap :
    (runTrace (Guillotine.init 3 4 false true "default")
        [(1,1,"first_fit"),(2,1,"worst_width_fit"),(1,1,"worst_width_fit"),(1,2,"first_fit")]).map
      (fun p => (p.2, p.1.items.map Item.rect, anyPairOverlap (placedRects p.1.items)))
      = some ([true, true, true, true],
          [some ⟨1,1,0,0⟩, some ⟨2,1,0,1⟩, some ⟨1,1,0,2⟩, some ⟨1,2,1,0⟩], true) ∧
    FreeRectangle.overlaps ⟨2,1,0,1⟩ ⟨1,2,1,0⟩ = true := by decide

/-- Claim C5 (code-bug evidence): on the free list reached by three
insertions into a 3 by 5 bin, the merge pass combines the rectangles
(2,2,1,2) and (3,1,0,4), which share neither the same x and width nor the
same y and height, because the adjacency filters scan the whole free list
instead of the matching candidates. -/
theorem C5_merges_nonmatching_pair :
    (runTrace (Guillotine.init 3 5 false false "default")
        [(1,1,"first_fit"),(3,1,"first_fit"),(1,2,"first_fit")]).map
      (fun p => (p.2, p.1.freerects))
      = some ([true, true, true], [⟨2,1,1,0⟩, ⟨2,2,1,2⟩, ⟨3,1,0,4⟩]) ∧
    mergeBody [⟨2,1,1,0⟩, ⟨2,2,1,2⟩, ⟨3,1,0,4⟩] ⟨2,2,1,2⟩
      = some [⟨2,1,1,0⟩, ⟨2,3,1,2⟩] ∧
    (runTrace (Guillotine.init 3 5 false true "default")
        [(1,1,"first_fit"),(3,1,"first_fit"),(1,2,"first_fit")]).map
      (fun p => p.1.freerects)
      = some [⟨2,1,1,0⟩, ⟨2,3,1,2⟩] ∧
    specMergeable ⟨2,2,1,2⟩ ⟨3,1,0,4⟩ = false ∧
    specMergeable ⟨3,1,0,4⟩ ⟨2,2,1,2⟩ = false := by decide

/-- Claim C10 (code-bug evidence): five successful insertions into a
5 by 5 bin with the SplitShorterAxis policy and merge enabled reach the
free list [(4,2,1,0), (1,1,1,3), (5,1,0,4), (2,1,3,3)]; the sixth insert
then raises: during its merge pass the rectangle (1,1,1,3) is merged by
the width branch (removing it) and the height branch, whose candidate
list was computed before that removal, removes it a second time —
`list.remove` raises ValueError. -/
theorem C10_merge_pass_raises :
    (runTrace (Guillotine.init 5 5 false true "SplitShorterAxis")
        [(1,2,"first_fit"),(2,1,"worst_width_fit"),(1,1,"best_area_fit"),
         (1,2,"best_width_fit"),(2,1,"best_area_fit")]).map
      (fun p => (p.2, p.1.freerects))
      = some ([true, true, true, true, true],
          [⟨4,2,1,0⟩, ⟨1,1,1,3⟩, ⟨5,1,0,4⟩, ⟨2,1,3,3⟩]) ∧
    runTrace (Guillotine.init 5 5 false true "SplitShorterAxis")
        [(1,2,"first_fit"),(2,1,"worst_width_fit"),(1,1,"best_area_fit"),
         (1,2,"best_width_fit"),(2,1,"best_area_fit"),(1,1,"first_fit")] = none := by
  decide

/-- Claim C3 counterexample: in a fresh 3 by 4 bin with rotation enabled,
a 2 by 3 item fits in both orientations and both orientations yield the
same best candidate (3,4,0,0) — a tie, which per the claim should keep
the item unrotated — yet `insert` places the item rotated, as a 3 by 2
with its rotation flag set, because the code rotates whenever the chosen
candidate compares equal to the rotated-orientation candidate. -/
theorem C3_tie_is_rotated :
    rectangleReduce ((Guillotine.init 3 4 true false "default").fitted_rects
        ⟨2, 3, none, false⟩ false) intLt ReduceField.width = some ⟨3, 4, 0, 0⟩ ∧
    rectangleReduce ((Guillotine.init 3 4 true false "default").fitted_rects
        ⟨2, 3, none, false⟩ true) intLt ReduceField.width = some ⟨3, 4, 0, 0⟩ ∧
    (Guillotine.init 3 4 true false "default").insert ⟨2, 3, none, false⟩ "best_width_fit"
      = some (true,
          { x := 3, y := 4, rotation := true, rMerge := false, split_heuristic := "default",
            freerects := [⟨3, 2, 0, 2⟩],
            items := [⟨3, 2, some (0, 0), true⟩] },
          ⟨3, 2, some (0, 0), true⟩) := by decide

theorem some_beq_some (a b : FreeRectangle) :
    ((some a : Option FreeRectangle) == some b) = (a == b) := by
  by_cases h : a = b
  · subst h; simp
  · simp [h]

/-- Claim C3 (amended): with rotation enabled, when the unrotated and
rotated orientations have best candidates A and B respectively, the
engine selects the lexicographically smaller of the two under the
(width, height, x, y) tuple order — hence the smaller-by-width candidate
whenever the widths differ — and the item's width and height are swapped
exactly when the selected candidate is EQUAL to the rotated candidate B;
in particular when A = B (a tie) the item is swapped, not kept unrotated. -/
theorem C3_rotation_selection (g : Guillotine) (it : Item) (field : ReduceField)
    (op : Int → Int → Bool) (A B : FreeRectangle)
    (hrot : g.rotation = true)
    (hA : rectangleReduce (g.fitted_rects it false) op field = some A)
    (hB : rectangleReduce (g.fitted_rects it true) op field = some B) :
    g.generic_algo it field op =
      (let best := if FreeRectangle.tupleLt B A then B else A
       let it3 : Item :=
         { (if best == B then it.rotate else it) with corner := some (best.x, best.y) }
       (true,
        { g with
          items := g.items ++ [it3],
          freerects := (g.freerects.erase best)
            ++ splitFreeRect g.split_heuristic it3 best },
        it3)) := by
  unfold Guillotine.generic_algo
  rw [hA, hB, hrot]
  simp only [eq_self_iff_true, if_true, compareTwoFreerects, some_beq_some]

theorem C3_rotation_selection_witness :
    (Guillotine.init 3 4 true false "default").rotation = true ∧
    rectangleReduce ((Guillotine.init 3 4 true false "default").fitted_rects
      ⟨2,3,none,false⟩ false) intLt ReduceField.width = some ⟨3,4,0,0⟩ ∧
    rectangleReduce ((Guillotine.init 3 4 true false "default").fitted_rects
      ⟨2,3,none,false⟩ true) intLt ReduceField.width = some ⟨3,4,0,0⟩ ∧
    (Guillotine.init 3 4 true false "default").generic_algo ⟨2,3,none,false⟩
        ReduceField.width intLt =
      (let best := if FreeRectangle.tupleLt ⟨3,4,0,0⟩ ⟨3,4,0,0⟩ then
          (⟨3,4,0,0⟩ : FreeRectangle) else ⟨3,4,0,0⟩
       let it3 : Item :=
         { (if best == (⟨3,4,0,0⟩ : FreeRectangle) then Item.rotate ⟨2,3,none,false⟩
            else ⟨2,3,none,false⟩) with corner := some (best.x, best.y) }
       (true,
        { (Guillotine.init 3 4 true false "default") with
          items := (Guillotine.init 3 4 true false "default").items ++ [it3],
          freerects := ((Guillotine.init 3 4 true false "default").freerects.erase best)
            ++ splitFreeRect (Guillotine.init 3 4 true false "default").split_heuristic it3 best },
        it3)) :=
  ⟨rfl, by decide, by decide,
    C3_rotation_selection _ _ _ _ _ _ rfl (by decide) (by decide)⟩

theorem decide_le_eq_not_decide_lt (a b : Int) : decide (a ≤ b) = !decide (b < a) := by
  rw [← decide_not]
  exact decide_eq_decide.mpr not_lt.symm

/-- Claim C6: for every item and every free rectangle the split-axis
boolean (true = horizontal) matches, policy by policy, the formulas of
the claim: default always horizontal; SplitShorterLeftoverAxis iff
leftover width is at most leftover height; SplitLongerLeftoverAxis iff
leftover width exceeds leftover height; SplitMinimizeArea iff
item width times leftover height exceeds leftover width times item
height; SplitMaximizeArea its negation; SplitShorterAxis iff the free
rectangle is at most as wide as tall; SplitLongerAxis iff wider than
tall. -/
theorem C6_split_policy (it : Item) (F : FreeRectangle) :
    splitDecision "default" it F = true ∧
    splitDecision "SplitShorterLeftoverAxis" it F
      = decide (F.width - it.width ≤ F.height - it.height) ∧
    splitDecision "SplitLongerLeftoverAxis" it F
      = decide (F.height - it.height < F.width - it.width) ∧
    splitDecision "SplitMinimizeArea" it F
      = decide ((F.width - it.width) * it.height < it.width * (F.height - it.height)) ∧
    splitDecision "SplitMaximizeArea" it F
      = !splitDecision "SplitMinimizeArea" it F ∧
    splitDecision "SplitShorterAxis" it F = decide (F.width ≤ F.height) ∧
    splitDecision "SplitLongerAxis" it F = decide (F.height < F.width) := by
  refine ⟨rfl, rfl, rfl, rfl, ?_, rfl, rfl⟩
  show decide (it.width * (F.height - it.height) ≤ (F.width - it.width) * it.height)
    = !decide ((F.width - it.width) * it.height < it.width * (F.height - it.height))
  exact decide_le_eq_not_decide_lt _ _

theorem fitted_rects_empty (g : Guillotine) (it : Item) (b : Bool)
    (hg : g.freerects = []) : g.fitted_rects it b = [] := by
  simp [Guillotine.fitted_rects, hg]

theorem first_fit_empty (g : Guillotine) (it : Item) (hg : g.freerects = []) :
    ∃ it', g.first_fit it = (false, g, it') := by
  unfold Guillotine.first_fit
  rw [fitted_rects_empty g it false hg, fitted_rects_empty g it true hg]
  cases hr : g.rotation <;> simp

theorem generic_algo_empty (g : Guillotine) (it : Item) (f : ReduceField)
    (op : Int → Int → Bool) (hg : g.freerects = []) :
    ∃ it', g.generic_algo it f op = (false, g, it') := by
  unfold Guillotine.generic_algo
  rw [fitted_rects_empty g it false hg, fitted_rects_empty g it true hg]
  cases hr : g.rotation <;> simp [rectangleReduce, compareTwoFreerects]

theorem insert_empty (g : Guillotine) (it : Item) (heu : String)
    (hg : g.freerects = []) :
    ∃ it', g.insert it heu = some (false, g, it') := by
  unfold Guillotine.insert
  split_ifs <;>
    first
      | (obtain ⟨it', h⟩ := first_fit_empty g it hg
         rw [h]; exact ⟨it', rfl⟩)
      | (obtain ⟨it', h⟩ := generic_algo_empty g it ReduceField.width intLt hg
         rw [h]; exact ⟨it', rfl⟩)
      | (obtain ⟨it', h⟩ := generic_algo_empty g it ReduceField.height intLt hg
         rw [h]; exact ⟨it', rfl⟩)
      | (obtain ⟨it', h⟩ := generic_algo_empty g it ReduceField.area intLt hg
         rw [h]; exact ⟨it', rfl⟩)
      | (obtain ⟨it', h⟩ := generic_algo_empty g it ReduceField.width intGt hg
         rw [h]; exact ⟨it', rfl⟩)
      | (obtain ⟨it', h⟩ := generic_algo_empty g it ReduceField.height intGt hg
         rw [h]; exact ⟨it', rfl⟩)
      | (obtain ⟨it', h⟩ := generic_algo_empty g it ReduceField.area intGt hg
         rw [h]; exact ⟨it', rfl⟩)
      | exact ⟨it, rfl⟩

/-- Claim C8: constructing the engine with a zero bin dimension yields an
empty free-rectangle list, and on any engine whose free list is empty
every `insert`, with any item and any heuristic, returns `False` without
raising and leaves the engine (in particular the empty free list)
unchanged — so every subsequent insert also fails. -/
theorem C8_zero_dimension (x y : Int) (r m : Bool) (s : String)
    (h : x = 0 ∨ y = 0) :
    (Guillotine.init x y r m s).freerects = [] ∧
    ∀ (g : Guillotine) (it : Item) (heu : String), g.freerects = [] →
      ∃ it', g.insert it heu = some (false, g, it') := by
  constructor
  · rcases h with h | h <;> simp [Guillotine.init, h]
  · intro g it heu hg
    exact insert_empty g it heu hg

theorem C8_zero_dimension_witness :
    ((0 : Int) = 0 ∨ (4 : Int) = 0) ∧
    ((Guillotine.init 0 4 true false "default").freerects = [] ∧
     ∀ (g : Guillotine) (it : Item) (heu : String), g.freerects = [] →
       ∃ it', g.insert it heu = some (false, g, it')) :=
  ⟨Or.inl rfl, C8_zero_dimension 0 4 true false "default" (Or.inl rfl)⟩

/-- Claim C9 counterexample: for an engine constructed with a zero bin
dimension, `bin_stats` does not return a result — the efficiency
computation divides by the bin area with no guard, raising
`ZeroDivisionError` (modelled as `none`), contradicting the claim that
the division is guarded and no error is raised for every engine state. -/
theorem C9_zero_area_raises :
    (Guillotine.init 0 4 true false "default").bin_stats = none := by decide

/-- Claim C9 (amended): for every engine whose bin area is nonzero,
`bin_stats` returns the bin width, height, area, the efficiency
1 - free_area/bin_area, and the placed-item list, raising no error; the
function reads the state only, mutating nothing.  When the bin area is
zero it raises `ZeroDivisionError`: the division is not guarded. -/
theorem C9_bin_stats (g : Guillotine) (h : g.x * g.y ≠ 0) :
    g.bin_stats = some
      { width := g.x, height := g.y, area := g.x * g.y,
        efficiency := 1 - (freeAreaSum g.freerects : ℚ) / ((g.x * g.y : Int) : ℚ),
        items := g.items } := by
  simp [Guillotine.bin_stats, h]

theorem C9_bin_stats_witness :
    (Guillotine.init 8 4 true false "default").x
        * (Guillotine.init 8 4 true false "default").y ≠ 0 ∧
    (Guillotine.init 8 4 true false "default").bin_stats
      = some { width := 8, height := 4, area := 32, efficiency := 0, items := [] } := by
  refine ⟨by decide, ?_⟩
  rw [C9_bin_stats (Guillotine.init 8 4 true false "default") (by decide)]
  norm_num [Guillotine.init, freeAreaSum, FreeRectangle.area]
